import Mathlib

/-!
# Verification of the redis-utils orchestration runtime and messaging layer

Shallow embedding of the core of `scripts/redis-utils/app`:

* `app/messages.py` — the message codec (task / report / shutdown / status
  envelopes, `to_dict` / `from_dict` / `parse_message`);
* `app/orchestration.py` — session provisioning (`_find_available_sequence`,
  `initialize_orchestration`), descriptor codec, `get_config`,
  `cleanup_session`;
* `app/sender.py` — `RedisSender.send_message` / `send_with_publish`;
* `app/scenarios/moogle_scenario.py` — `send_task`, `receive_all_reports`,
  `send_shutdown`;
* `app/scenarios/chocobo_scenario.py` — `run_worker_loop` and its status /
  report emissions;
* `app/monitor/services/pubsub_listener.py` — the bounded subscriber queue.

Python dictionaries and the JSON values stored in them are modelled by the
`PyValue` inductive below.  The Python `json` standard library (the mapping
between a dict and its JSON text) is external to the repository and is modelled
as the identity on `PyValue` dictionaries: a value pushed onto a Redis list is
represented by the dictionary it serialises, and `decode ∘ encode` is studied
at the dict level (`to_dict` / `from_dict` / the `parse_message` dispatch),
which is the code this repository owns.  Dataclass fields are dynamically
typed in Python, so message fields are `PyValue`s; factory constructors
(`create`, `success`, ...) fill them exactly as the source does.  Calls to
`get_iso_timestamp()` / `generate_uuid_session_id()` (wall clock and fresh
UUIDs) are modelled as explicit string parameters.
-/

/-- A Python/JSON value as it appears in the message payloads: `None`, bools,
ints, strings, lists and string-keyed dictionaries (association lists in
insertion order, as Python dicts are ordered). -/
inductive PyValue : Type where
  | none : PyValue
  | bool : Bool → PyValue
  | int : Int → PyValue
  | str : String → PyValue
  | list : List PyValue → PyValue
  | dict : List (String × PyValue) → PyValue
deriving Repr

/-- A Python dictionary with string keys. -/
abbrev PyDict := List (String × PyValue)

namespace PyValue

mutual

/-- Boolean equality on `PyValue`. -/
def beq : PyValue → PyValue → Bool
  | .none, .none => true
  | .bool a, .bool b => a == b
  | .int a, .int b => a == b
  | .str a, .str b => a == b
  | .list a, .list b => beqList a b
  | .dict a, .dict b => beqDict a b
  | _, _ => false

/-- Boolean equality on lists of `PyValue`s. -/
def beqList : List PyValue → List PyValue → Bool
  | [], [] => true
  | a :: as, b :: bs => beq a b && beqList as bs
  | _, _ => false

/-- Boolean equality on `PyValue` dictionaries. -/
def beqDict : List (String × PyValue) → List (String × PyValue) → Bool
  | [], [] => true
  | (ka, va) :: as, (kb, vb) :: bs => ka == kb && beq va vb && beqDict as bs
  | _, _ => false

end

mutual

theorem beq_eq : ∀ {a b : PyValue}, beq a b = true → a = b
  | .none, .none, _ => rfl
  | .bool _, .bool _, h => by
      simp only [beq, beq_iff_eq] at h; exact congrArg PyValue.bool h
  | .int _, .int _, h => by
      simp only [beq, beq_iff_eq] at h; exact congrArg PyValue.int h
  | .str _, .str _, h => by
      simp only [beq, beq_iff_eq] at h; exact congrArg PyValue.str h
  | .list _, .list _, h => by
      simp only [beq] at h; exact congrArg PyValue.list (beqList_eq h)
  | .dict _, .dict _, h => by
      simp only [beq] at h; exact congrArg PyValue.dict (beqDict_eq h)

theorem beqList_eq : ∀ {a b : List PyValue}, beqList a b = true → a = b
  | [], [], _ => rfl
  | a :: as, b :: bs, h => by
      simp only [beqList, Bool.and_eq_true] at h
      exact congrArg₂ List.cons (beq_eq h.1) (beqList_eq h.2)

theorem beqDict_eq : ∀ {a b : List (String × PyValue)}, beqDict a b = true → a = b
  | [], [], _ => rfl
  | (ka, va) :: as, (kb, vb) :: bs, h => by
      simp only [beqDict, Bool.and_eq_true, beq_iff_eq] at h
      exact congrArg₂ List.cons
        (congrArg₂ Prod.mk h.1.1 (beq_eq h.1.2)) (beqDict_eq h.2)

end

mutual

theorem beq_rfl : ∀ (a : PyValue), beq a a = true
  | .none => rfl
  | .bool b => by simp [beq]
  | .int n => by simp [beq]
  | .str s => by simp [beq]
  | .list l => by simp only [beq]; exact beqList_rfl l
  | .dict d => by simp only [beq]; exact beqDict_rfl d

theorem beqList_rfl : ∀ (l : List PyValue), beqList l l = true
  | [] => rfl
  | a :: as => by
      simp only [beqList, Bool.and_eq_true]; exact ⟨beq_rfl a, beqList_rfl as⟩

theorem beqDict_rfl : ∀ (d : List (String × PyValue)), beqDict d d = true
  | [] => rfl
  | (k, v) :: ds => by
      simp only [beqDict, Bool.and_eq_true, beq_self_eq_true, true_and]
      exact ⟨beq_rfl v, beqDict_rfl ds⟩

end

instance : DecidableEq PyValue := fun a b =>
  if h : beq a b = true then .isTrue (beq_eq h)
  else .isFalse (fun hab => h (hab ▸ beq_rfl a))

/-- Python truthiness check (`if not self.task_id` style tests): `None`,
`False`, `0`, `""`, `[]` and `{}` are falsy. -/
def falsy : PyValue → Bool
  | .none => true
  | .bool b => !b
  | .int n => n == 0
  | .str s => s == ""
  | .list l => l.isEmpty
  | .dict d => d.isEmpty

end PyValue

/-- Lookup in a Python dictionary (`data.get(k)` / `k in data`): first binding
of the key, mirroring Python dict access (keys are unique in real dicts). -/
def dget (d : PyDict) (k : String) : Option PyValue :=
  match d with
  | [] => Option.none
  | (k', v) :: rest => if k = k' then some v else dget rest k

/-- `k in data` for a Python dictionary. -/
def dmem (d : PyDict) (k : String) : Bool :=
  (dget d k).isSome

/-- Remove every binding of a key (`{k: v for k, v in data.items() if k != key}`
and `dict.pop`). -/
def dremove (d : PyDict) (k : String) : PyDict :=
  d.filter (fun kv => kv.1 ≠ k)

/-- `data.get(k, default)`: the bound value, or the default when absent. -/
def dgetD (d : PyDict) (k : String) (v : PyValue) : PyValue :=
  (dget d k).getD v

/-- `dict[k] = v` assignment: replaces any existing binding of `k`.  (Python
keeps the key's original position; only `dget`/`dmem` observe our dicts, so the
position of the binding is irrelevant.) -/
def dset (d : PyDict) (k : String) (v : PyValue) : PyDict :=
  dremove d k ++ [(k, v)]

/-! ## Message codec (`app/messages.py`)

Each dataclass is a structure of `PyValue` fields (Python dataclasses are
dynamically typed).  `initKw` models `cls(**kwargs)`: every `init=True` field
is an optional keyword, absent keywords take the dataclass default, and
`__post_init__` runs afterwards.  `fromDict` models the classmethod
`from_dict` including the TypeError raised on an unexpected keyword (returned
as `Option.none`). -/

/-- `TaskMessage` (fields `type="task"` implicit in the variant). -/
structure TaskMessage where
  timestamp : PyValue
  message_id : PyValue
  task_id : PyValue
  session_id : PyValue
  child_id : PyValue
  prompt : PyValue
  context : PyValue
  priority : PyValue
  timeout : PyValue
deriving DecidableEq, Repr

/-- Keyword names accepted by `TaskMessage(**kwargs)` (`init=True` fields;
`type` has `init=False`). -/
def TaskMessage.kwargNames : List String :=
  ["timestamp", "message_id", "task_id", "session_id", "child_id",
   "prompt", "context", "priority", "timeout"]

/-- `TaskMessage(**kwargs)`: defaults as in the dataclass declaration, then
`__post_init__` replaces a falsy `task_id` with a fresh UUID (`tid`).
`now`/`mid` are the `get_iso_timestamp()` / `generate_uuid_session_id()`
results used by the field default factories. -/
def TaskMessage.initKw (now mid tid : String)
    (timestamp message_id task_id session_id child_id prompt context priority
      timeout : Option PyValue) : TaskMessage :=
  let t0 := task_id.getD (.str "")
  { timestamp := timestamp.getD (.str now)
    message_id := message_id.getD (.str mid)
    task_id := if t0.falsy then .str tid else t0
    session_id := session_id.getD (.str "")
    child_id := child_id.getD (.int 0)
    prompt := prompt.getD (.str "")
    context := context.getD (.dict [])
    priority := priority.getD (.int 3)
    timeout := timeout.getD .none }

/-- `TaskMessage.from_dict`: drop `type`, map the legacy `instruction` alias
onto `prompt` (both branches of the source's inner `if` assign the
`instruction` value, so `instruction` wins whenever present), then
`cls(**filtered)`. -/
def TaskMessage.fromDict (now mid tid : String) (data : PyDict) :
    Option TaskMessage :=
  let fd := dremove data "type"
  let fd := match dget fd "instruction" with
    | some v => dset (dremove fd "instruction") "prompt" v
    | Option.none => fd
  if fd.all (fun kv => kv.1 ∈ TaskMessage.kwargNames) then
    some (TaskMessage.initKw now mid tid (dget fd "timestamp")
      (dget fd "message_id") (dget fd "task_id") (dget fd "session_id")
      (dget fd "child_id") (dget fd "prompt") (dget fd "context")
      (dget fd "priority") (dget fd "timeout"))
  else Option.none

/-- `asdict` of a `TaskMessage` (dataclass field order). -/
def TaskMessage.toDict (m : TaskMessage) : PyDict :=
  [("type", .str "task"), ("timestamp", m.timestamp),
   ("message_id", m.message_id), ("task_id", m.task_id),
   ("session_id", m.session_id), ("child_id", m.child_id),
   ("prompt", m.prompt), ("context", m.context), ("priority", m.priority),
   ("timeout", m.timeout)]

/-- `TaskMessage.create` factory. -/
def TaskMessage.create (now mid tid : String) (prompt session_id : String)
    (child_id : Int) (context : Option PyDict) (priority : Int)
    (timeout : Option Int) : TaskMessage :=
  TaskMessage.initKw now mid tid Option.none Option.none Option.none
    (some (.str session_id)) (some (.int child_id)) (some (.str prompt))
    (some (.dict (context.getD []))) (some (.int priority))
    (some (match timeout with
      | some t => .int t
      | Option.none => .none))

/-- `ReportMessage`. -/
structure ReportMessage where
  timestamp : PyValue
  message_id : PyValue
  task_id : PyValue
  session_id : PyValue
  child_id : PyValue
  status : PyValue
  result : PyValue
  error : PyValue
  duration_ms : PyValue
  metadata : PyValue
deriving DecidableEq, Repr

/-- Keyword names accepted by `ReportMessage(**kwargs)`. -/
def ReportMessage.kwargNames : List String :=
  ["timestamp", "message_id", "task_id", "session_id", "child_id",
   "status", "result", "error", "duration_ms", "metadata"]

/-- `ReportMessage(**kwargs)` with the dataclass defaults (no
`__post_init__`). -/
def ReportMessage.initKw (now mid : String)
    (timestamp message_id task_id session_id child_id status result error
      duration_ms metadata : Option PyValue) : ReportMessage :=
  { timestamp := timestamp.getD (.str now)
    message_id := message_id.getD (.str mid)
    task_id := task_id.getD (.str "")
    session_id := session_id.getD (.str "")
    child_id := child_id.getD (.int 0)
    status := status.getD (.str "success")
    result := result.getD .none
    error := error.getD .none
    duration_ms := duration_ms.getD .none
    metadata := metadata.getD (.dict []) }

/-- `BaseMessage.from_dict` specialised to `ReportMessage`: drop `type`, then
`cls(**filtered)`. -/
def ReportMessage.fromDict (now mid : String) (data : PyDict) :
    Option ReportMessage :=
  let fd := dremove data "type"
  if fd.all (fun kv => kv.1 ∈ ReportMessage.kwargNames) then
    some (ReportMessage.initKw now mid (dget fd "timestamp")
      (dget fd "message_id") (dget fd "task_id") (dget fd "session_id")
      (dget fd "child_id") (dget fd "status") (dget fd "result")
      (dget fd "error") (dget fd "duration_ms") (dget fd "metadata"))
  else Option.none

/-- `asdict` of a `ReportMessage`. -/
def ReportMessage.toDict (m : ReportMessage) : PyDict :=
  [("type", .str "report"), ("timestamp", m.timestamp),
   ("message_id", m.message_id), ("task_id", m.task_id),
   ("session_id", m.session_id), ("child_id", m.child_id),
   ("status", m.status), ("result", m.result), ("error", m.error),
   ("duration_ms", m.duration_ms), ("metadata", m.metadata)]

/-- `ReportMessage.success` factory. -/
def ReportMessage.mkSuccess (now mid : String) (task_id session_id : String)
    (child_id : Int) (result : PyValue) (duration_ms : Option Int)
    (metadata : Option PyDict) : ReportMessage :=
  ReportMessage.initKw now mid Option.none Option.none (some (.str task_id))
    (some (.str session_id)) (some (.int child_id)) (some (.str "success"))
    (some result)
    Option.none
    (some (match duration_ms with
      | some d => .int d
      | Option.none => .none))
    (some (.dict (metadata.getD [])))

/-- `ReportMessage.failure` factory. -/
def ReportMessage.mkFailure (now mid : String) (task_id session_id : String)
    (child_id : Int) (error : String) (duration_ms : Option Int)
    (metadata : Option PyDict) : ReportMessage :=
  ReportMessage.initKw now mid Option.none Option.none (some (.str task_id))
    (some (.str session_id)) (some (.int child_id)) (some (.str "failure"))
    Option.none
    (some (.str error))
    (some (match duration_ms with
      | some d => .int d
      | Option.none => .none))
    (some (.dict (metadata.getD [])))

/-- `ShutdownMessage`. -/
structure ShutdownMessage where
  timestamp : PyValue
  message_id : PyValue
  session_id : PyValue
  reason : PyValue
  graceful : PyValue
  target_child_id : PyValue
deriving DecidableEq, Repr

/-- Keyword names accepted by `ShutdownMessage(**kwargs)`. -/
def ShutdownMessage.kwargNames : List String :=
  ["timestamp", "message_id", "session_id", "reason", "graceful",
   "target_child_id"]

/-- `ShutdownMessage(**kwargs)` with the dataclass defaults. -/
def ShutdownMessage.initKw (now mid : String)
    (timestamp message_id session_id reason graceful target_child_id :
      Option PyValue) : ShutdownMessage :=
  { timestamp := timestamp.getD (.str now)
    message_id := message_id.getD (.str mid)
    session_id := session_id.getD (.str "")
    reason := reason.getD (.str "normal")
    graceful := graceful.getD (.bool true)
    target_child_id := target_child_id.getD .none }

/-- `BaseMessage.from_dict` specialised to `ShutdownMessage`. -/
def ShutdownMessage.fromDict (now mid : String) (data : PyDict) :
    Option ShutdownMessage :=
  let fd := dremove data "type"
  if fd.all (fun kv => kv.1 ∈ ShutdownMessage.kwargNames) then
    some (ShutdownMessage.initKw now mid (dget fd "timestamp")
      (dget fd "message_id") (dget fd "session_id") (dget fd "reason")
      (dget fd "graceful") (dget fd "target_child_id"))
  else Option.none

/-- `asdict` of a `ShutdownMessage`. -/
def ShutdownMessage.toDict (m : ShutdownMessage) : PyDict :=
  [("type", .str "shutdown"), ("timestamp", m.timestamp),
   ("message_id", m.message_id), ("session_id", m.session_id),
   ("reason", m.reason), ("graceful", m.graceful),
   ("target_child_id", m.target_child_id)]

/-- `ShutdownMessage.create` factory. -/
def ShutdownMessage.create (now mid : String) (session_id reason : String)
    (graceful : Bool) (target_child_id : Option Int) : ShutdownMessage :=
  ShutdownMessage.initKw now mid Option.none Option.none
    (some (.str session_id)) (some (.str reason)) (some (.bool graceful))
    (some (match target_child_id with
      | some t => .int t
      | Option.none => .none))

/-- `StatusMessage`. -/
structure StatusMessage where
  timestamp : PyValue
  message_id : PyValue
  session_id : PyValue
  child_id : PyValue
  event : PyValue
  details : PyValue
deriving DecidableEq, Repr

/-- Keyword names accepted by `StatusMessage(**kwargs)`. -/
def StatusMessage.kwargNames : List String :=
  ["timestamp", "message_id", "session_id", "child_id", "event", "details"]

/-- `StatusMessage(**kwargs)` with the dataclass defaults. -/
def StatusMessage.initKw (now mid : String)
    (timestamp message_id session_id child_id event details :
      Option PyValue) : StatusMessage :=
  { timestamp := timestamp.getD (.str now)
    message_id := message_id.getD (.str mid)
    session_id := session_id.getD (.str "")
    child_id := child_id.getD (.int 0)
    event := event.getD (.str "")
    details := details.getD (.dict []) }

/-- `BaseMessage.from_dict` specialised to `StatusMessage`. -/
def StatusMessage.fromDict (now mid : String) (data : PyDict) :
    Option StatusMessage :=
  let fd := dremove data "type"
  if fd.all (fun kv => kv.1 ∈ StatusMessage.kwargNames) then
    some (StatusMessage.initKw now mid (dget fd "timestamp")
      (dget fd "message_id") (dget fd "session_id") (dget fd "child_id")
      (dget fd "event") (dget fd "details"))
  else Option.none

/-- `asdict` of a `StatusMessage`. -/
def StatusMessage.toDict (m : StatusMessage) : PyDict :=
  [("type", .str "status"), ("timestamp", m.timestamp),
   ("message_id", m.message_id), ("session_id", m.session_id),
   ("child_id", m.child_id), ("event", m.event), ("details", m.details)]

/-- `StatusMessage.create` factory. -/
def StatusMessage.create (now mid : String) (session_id : String)
    (child_id : Int) (event : String) (details : Option PyDict) :
    StatusMessage :=
  StatusMessage.initKw now mid Option.none Option.none
    (some (.str session_id)) (some (.int child_id)) (some (.str event))
    (some (.dict (details.getD [])))

/-- The result of `parse_message`: one of the four envelope variants. -/
inductive Msg : Type where
  | task : TaskMessage → Msg
  | report : ReportMessage → Msg
  | shutdown : ShutdownMessage → Msg
  | status : StatusMessage → Msg
deriving DecidableEq, Repr

/-- `parse_message`: dispatch on the `type` field; an unknown type raises
`ValueError`, modelled as `Option.none`. -/
def parse_message (now mid tid : String) (data : PyDict) : Option Msg :=
  let msg_type := dget data "type"
  if msg_type = some (.str "task") then
    (TaskMessage.fromDict now mid tid data).map Msg.task
  else if msg_type = some (.str "report") then
    (ReportMessage.fromDict now mid data).map Msg.report
  else if msg_type = some (.str "shutdown") then
    (ShutdownMessage.fromDict now mid data).map Msg.shutdown
  else if msg_type = some (.str "status") then
    (StatusMessage.fromDict now mid data).map Msg.status
  else Option.none

/-- `asdict` of any message variant (the dict that `to_json` serialises). -/
def Msg.toDict : Msg → PyDict
  | .task m => m.toDict
  | .report m => m.toDict
  | .shutdown m => m.toDict
  | .status m => m.toDict

/-- Decode of a `task_id` through `TaskMessage.from_dict`: `cls(**kwargs)`
runs `__post_init__`, which replaces a falsy `task_id` with a fresh UUID. -/
def TaskMessage.withFreshTaskId (tid : String) (m : TaskMessage) : TaskMessage :=
  { m with task_id := if m.task_id.falsy then PyValue.str tid else m.task_id }

/-! ## Session descriptors (`app/orchestration.py`)

`OrchestrationConfig` is typed as its attributes are documented (and as
`initialize_orchestration` produces them); the descriptor dict is written only
by `to_json`, so `fromDict` decodes exactly those shapes.  As with messages,
the JSON text layer (Python's `json` module) is identified with the dict. -/

/-- `OrchestrationConfig`.  The Python attribute `prefix` is called `pfx`
here (`prefix` is not usable as a field name in this development). -/
structure OrchestrationConfig where
  session_id : String
  pfx : String
  max_children : Int
  created_at : String
  parent_to_child_lists : List String
  child_to_parent_lists : List String
  status_stream : String
  result_stream : String
  control_list : String
  monitor_channel : String
  mode : String
deriving DecidableEq, Repr

/-- The dataclass field names of `OrchestrationConfig` (the keyword names
accepted by `cls(**data)`). -/
def OrchestrationConfig.fieldNames : List String :=
  ["session_id", "prefix", "max_children", "created_at",
   "parent_to_child_lists", "child_to_parent_lists", "status_stream",
   "result_stream", "control_list", "monitor_channel", "mode"]

/-- `asdict` of an `OrchestrationConfig` (the dict serialised by
`to_json`). -/
def OrchestrationConfig.toDict (c : OrchestrationConfig) : PyDict :=
  [("session_id", .str c.session_id), ("prefix", .str c.pfx),
   ("max_children", .int c.max_children), ("created_at", .str c.created_at),
   ("parent_to_child_lists", .list (c.parent_to_child_lists.map .str)),
   ("child_to_parent_lists", .list (c.child_to_parent_lists.map .str)),
   ("status_stream", .str c.status_stream),
   ("result_stream", .str c.result_stream),
   ("control_list", .str c.control_list),
   ("monitor_channel", .str c.monitor_channel), ("mode", .str c.mode)]

/-- Decode a `PyValue` as a string. -/
def PyValue.asStr : PyValue → Option String
  | .str s => some s
  | _ => Option.none

/-- Decode a `PyValue` as an integer. -/
def PyValue.asInt : PyValue → Option Int
  | .int n => some n
  | _ => Option.none

/-- Decode a `PyValue` as a list of strings. -/
def PyValue.asStrList : PyValue → Option (List String)
  | .list l => l.mapM PyValue.asStr
  | _ => Option.none

/-- `OrchestrationConfig.from_dict` (`cls(**data)`): an unexpected keyword or
a missing required field raises `TypeError` (which `from_json` turns into
`None`); optional fields take the dataclass defaults.  Values are decoded at
the attribute types the descriptor is written with. -/
def OrchestrationConfig.fromDict (d : PyDict) : Option OrchestrationConfig :=
  if d.all (fun kv => kv.1 ∈ OrchestrationConfig.fieldNames) then do
    let session_id ← (dget d "session_id").bind PyValue.asStr
    let pfx ← (dget d "prefix").bind PyValue.asStr
    let max_children ← (dget d "max_children").bind PyValue.asInt
    let created_at ← (dget d "created_at").bind PyValue.asStr
    let parent_to_child_lists ← match dget d "parent_to_child_lists" with
      | some v => v.asStrList
      | Option.none => some []
    let child_to_parent_lists ← match dget d "child_to_parent_lists" with
      | some v => v.asStrList
      | Option.none => some []
    let status_stream ← match dget d "status_stream" with
      | some v => v.asStr
      | Option.none => some ""
    let result_stream ← match dget d "result_stream" with
      | some v => v.asStr
      | Option.none => some ""
    let control_list ← match dget d "control_list" with
      | some v => v.asStr
      | Option.none => some ""
    let monitor_channel ← match dget d "monitor_channel" with
      | some v => v.asStr
      | Option.none => some ""
    let mode ← match dget d "mode" with
      | some v => v.asStr
      | Option.none => some "normal"
    return { session_id := session_id, pfx := pfx,
             max_children := max_children, created_at := created_at,
             parent_to_child_lists := parent_to_child_lists,
             child_to_parent_lists := child_to_parent_lists,
             status_stream := status_stream, result_stream := result_stream,
             control_list := control_list,
             monitor_channel := monitor_channel, mode := mode }
  else Option.none

/-! ## The Redis store

The Redis-compatible server is external to the repository; it is modelled as a
key/value map (`entries`, an association list) plus the ordered log of
`PUBLISH` operations (`published`).  List keys hold `.list` values; `RPUSH`
appends.  Values pushed or stored are the `PyValue` dictionaries their JSON
texts denote. -/

/-- The store: key/value entries plus the publish log. -/
structure RedisStore where
  entries : PyDict
  published : List (String × PyValue)
deriving DecidableEq, Repr

/-- `GET key`. -/
def RedisStore.get (s : RedisStore) (k : String) : Option PyValue :=
  dget s.entries k

/-- `SET key value`. -/
def RedisStore.setKey (s : RedisStore) (k : String) (v : PyValue) : RedisStore :=
  { s with entries := dset s.entries k v }

/-- `DEL key`. -/
def RedisStore.del (s : RedisStore) (k : String) : RedisStore :=
  { s with entries := dremove s.entries k }

/-- `PUBLISH channel payload` (appended to the publish log). -/
def RedisStore.publish (s : RedisStore) (ch : String) (payload : PyValue) :
    RedisStore :=
  { s with published := s.published ++ [(ch, payload)] }

/-- The list stored at a key (empty when the key is absent). -/
def RedisStore.listAt (s : RedisStore) (k : String) : List PyValue :=
  match dget s.entries k with
  | some (.list l) => l
  | _ => []

/-- `RPUSH key value`: append to the list at the key, creating it if
absent. -/
def RedisStore.rpush (s : RedisStore) (k : String) (v : PyValue) : RedisStore :=
  s.setKey k (.list (s.listAt k ++ [v]))

/-! ## Session provisioning (`app/orchestration.py`) -/

/-- Python's `f"{seq:03d}"`: decimal, zero-padded to width 3. -/
def pad3 (n : Nat) : String :=
  let s := toString n
  if s.length < 3 then String.mk (List.replicate (3 - s.length) '0') ++ s
  else s

/-- The config key probed for a sequence number:
`f"{prefix}-{seq:03d}:config"`. -/
def seqConfigKey (pfx : String) (seq : Nat) : String :=
  pfx ++ "-" ++ pad3 seq ++ ":config"

/-- The probe loop of `_find_available_sequence`, starting at `seq` with
`fuel` attempts left. -/
def findAvailSeqAux (keyExists : String → Bool) (pfx : String) :
    Nat → Nat → Option Nat
  | _, 0 => Option.none
  | seq, fuel + 1 =>
    if keyExists (seqConfigKey pfx seq) then
      findAvailSeqAux keyExists pfx (seq + 1) fuel
    else some seq

/-- `_find_available_sequence`: the first `seq` in `1..max_attempts` whose
config key does not exist; `none` models the `RuntimeError` raised when every
number is taken.  `keyExists` is the `EXISTS` probe against the store. -/
def find_available_sequence (keyExists : String → Bool) (pfx : String)
    (maxAttempts : Nat) : Option Nat :=
  findAvailSeqAux keyExists pfx 1 maxAttempts

/-- The session prefix chosen by `initialize_orchestration` when `sequence`
is auto-allocated: `f"{prefix}-{sequence:03d}"` with the sequence found by
`_find_available_sequence` (with its default `max_attempts=100`). -/
def chosenSessionPfx (keyExists : String → Bool) (pfx : String) :
    Option String :=
  (find_available_sequence keyExists pfx 100).map
    (fun seq => pfx ++ "-" ++ pad3 seq)

/-! ## `get_config` and `cleanup_session` (`app/orchestration.py`) -/

/-- `get_config`: raises `ValueError` when neither `prefix` nor `session_id`
is given; otherwise `GET`s the config key (session_id takes precedence) and
decodes it, returning `none` for a missing key or an undecodable value. -/
def get_config (s : RedisStore) (pfx : Option String)
    (session_id : Option String) : Except String (Option OrchestrationConfig) :=
  match pfx, session_id with
  | Option.none, Option.none => .error "ValueError"
  | _, _ =>
    let config_key := match session_id with
      | some sid => "summoner:" ++ sid ++ ":config"
      | Option.none => pfx.getD "" ++ ":config"
    match s.get config_key with
    | Option.none => .ok Option.none
    | some (.dict d) => .ok (OrchestrationConfig.fromDict d)
    | some _ => .ok Option.none

/-- The key-deletion and cleanup-event phase of `cleanup_session`, given the
descriptor: `DEL` every referenced key (the non-empty stream/control names and
the config key), then in summoner mode publish the cleanup event.  `now` is
the `time.strftime` result used in the event. -/
def cleanupWithConfig (s : RedisStore) (now : String)
    (cfg : OrchestrationConfig) : Bool × RedisStore :=
  let keys := cfg.parent_to_child_lists ++ cfg.child_to_parent_lists
    ++ (if cfg.status_stream ≠ "" then [cfg.status_stream] else [])
    ++ (if cfg.result_stream ≠ "" then [cfg.result_stream] else [])
    ++ (if cfg.control_list ≠ "" then [cfg.control_list] else [])
    ++ [cfg.pfx ++ ":config"]
  let s1 := keys.foldl (fun st k => st.del k) s
  let s2 := if cfg.mode = "summoner" ∧ cfg.monitor_channel ≠ "" then
      s1.publish cfg.monitor_channel
        (.dict [("event", .str "cleanup"), ("session_id", .str cfg.session_id),
                ("timestamp", .str now)])
    else s1
  (true, s2)

/-- `cleanup_session`: with a `config` object the other parameters are
ignored and deletion proceeds unconditionally; otherwise the descriptor is
loaded first and a missing/undecodable descriptor returns `False` with no
further commands. -/
def cleanup_session (s : RedisStore) (now : String)
    (config : Option OrchestrationConfig) (pfx : Option String)
    (session_id : Option String) : Except String (Bool × RedisStore) :=
  match config with
  | some cfg => .ok (cleanupWithConfig s now cfg)
  | Option.none =>
    match pfx, session_id with
    | Option.none, Option.none => .error "ValueError"
    | _, _ =>
      match get_config s pfx session_id with
      | .error e => .error e
      | .ok Option.none => .ok (false, s)
      | .ok (some cfg) => .ok (cleanupWithConfig s now cfg)

/-! ## Sender (`app/sender.py`) -/

/-- `SendResult`. -/
structure SendResult where
  success : Bool
  list_length : Nat
  message_count : Nat
  published : Bool
  subscribers : Nat
  error : Option String
deriving DecidableEq, Repr

/-- A store-client call outcome: `.ok` is the server reply, `.error e` models
a raised `RedisConnectionError` / `RedisCommandError` with text `e`. -/
abbrev ClientReply (α : Type) := Except String α

/-- `RedisSender.send_message`: one `RPUSH`, catching client errors into a
failed `SendResult`. -/
def send_message (pushReply : ClientReply Nat) : SendResult :=
  match pushReply with
  | .ok n =>
    { success := true, list_length := n, message_count := 1,
      published := false, subscribers := 0, error := Option.none }
  | .error e =>
    { success := false, list_length := 0, message_count := 0,
      published := false, subscribers := 0, error := some e }

/-- A wire operation attempted by the sender, in program order. -/
inductive ClientOp : Type where
  | rpushOp : ClientOp
  | publishOp : ClientOp
deriving DecidableEq, Repr

/-- `RedisSender.send_with_publish`: `RPUSH` first; on push failure return the
failed result without attempting `PUBLISH`; on push success attempt `PUBLISH`,
and a publish failure leaves `success=True` (the pushed message is not rolled
back), `published=False`, recording the error text.  The second component is
the list of operations attempted, in order. -/
def send_with_publish (pushReply : ClientReply Nat)
    (publishReply : ClientReply Nat) : SendResult × List ClientOp :=
  let r := send_message pushReply
  if r.success then
    match publishReply with
    | .ok subs =>
      ({ r with published := true, subscribers := subs },
       [.rpushOp, .publishOp])
    | .error e =>
      ({ r with error := some ("PUBLISH failed: " ++ e) },
       [.rpushOp, .publishOp])
  else (r, [.rpushOp])

/-- `create_publish_payload`: the monitor envelope
`queue / message / timestamp` dict wrapping a pushed payload. -/
def create_publish_payload (now : String) (queue_name : String)
    (message : PyValue) : PyValue :=
  .dict [("queue", .str queue_name), ("message", message),
         ("timestamp", .str now)]

/-! ## Parent dispatcher (`app/scenarios/moogle_scenario.py`)

The store client is modelled as succeeding (connection failures are possible
on any call and orthogonal to the dispatch logic studied here); `send_task` /
`send_any_message` therefore report `success=True` and the interesting state
is the store.  Python list indexing (`lst[i]`, with negative wrap-around and
`IndexError`) is `pyIndex`. -/

/-- Python `lst[i]`: non-negative indices from the front, negative indices
wrap from the back, out-of-range raises `IndexError` (`Option.none`). -/
def pyIndex {α : Type} (l : List α) (i : Int) : Option α :=
  let j : Int := if i < 0 then (l.length : Int) + i else i
  if h : 0 ≤ j ∧ j < (l.length : Int) then
    some (l.get ⟨j.toNat, by omega⟩)
  else Option.none

/-- `MoogleScenario.send_task`: build the task, select
`parent_to_child_lists[child_id - 1]`, `RPUSH` the task, and mirror it to the
monitor channel when one is configured.  Returns `(success, task_id)` and the
new store; `.error` models the uncaught `IndexError`. -/
def moogle_send_task (s : RedisStore) (cfg : OrchestrationConfig)
    (session_id : String) (child_id : Int) (prompt : String)
    (context : Option PyDict) (priority : Int) (timeout : Option Int)
    (now mid tid : String) : Except String ((Bool × PyValue) × RedisStore) :=
  let task := TaskMessage.create now mid tid prompt session_id child_id
    context priority timeout
  match pyIndex cfg.parent_to_child_lists (child_id - 1) with
  | Option.none => .error "IndexError"
  | some queue =>
    let s1 := s.rpush queue (.dict task.toDict)
    let s2 := if cfg.monitor_channel ≠ "" then
        s1.publish cfg.monitor_channel
          (create_publish_payload now queue (.dict task.toDict))
      else s1
    .ok ((true, task.task_id), s2)

/-- `MoogleScenario.send_shutdown`: build one shutdown envelope; with a
target, push it onto `parent_to_child_lists[target - 1]` only; with no target,
push it onto every task queue in order.  Returns the per-push success flags
and the new store. -/
def moogle_send_shutdown (s : RedisStore) (cfg : OrchestrationConfig)
    (session_id : String) (reason : String) (graceful : Bool)
    (target_child_id : Option Int) (now mid : String) :
    Except String (List Bool × RedisStore) :=
  let sd := ShutdownMessage.create now mid session_id reason graceful
    target_child_id
  match target_child_id with
  | some t =>
    match pyIndex cfg.parent_to_child_lists (t - 1) with
    | Option.none => .error "IndexError"
    | some queue => .ok ([true], s.rpush queue (.dict sd.toDict))
  | Option.none =>
    .ok (cfg.parent_to_child_lists.foldl
      (fun (acc : List Bool × RedisStore) queue =>
        (acc.1 ++ [true], acc.2.rpush queue (.dict sd.toDict)))
      ([], s))

/-- Python `int()` on a float: truncation toward zero. -/
def pyTrunc (x : ℚ) : Int :=
  if 0 ≤ x then ⌊x⌋ else ⌈x⌉

/-- The per-iteration blocking timeout of
`MoogleScenario.receive_all_reports`: `min(5, int(remaining) + 1)`, computed
after the loop has checked `remaining > 0`. -/
def perCallTimeout (remaining : ℚ) : Int :=
  min 5 (pyTrunc remaining + 1)

/-! ## Worker runtime (`app/scenarios/chocobo_scenario.py`)

`run_worker_loop` is modelled over the sequence of `receive_message` results
(`none` = timeout or unparseable payload — both make the loop `continue`).
An exhausted input list models the externally set stop flag (`stop()`)
becoming visible at the next iteration.  The observable behaviour is the
ordered trace of status emissions (`send_status`, published to the monitor
channel) and report pushes (`send_report`, onto the report queue); the task
handler is a parameter, as in the source. -/

/-- One observable emission of the worker loop, in program order. -/
inductive WorkerEvent : Type where
  | status : String → WorkerEvent
  | report : PyValue → Bool → WorkerEvent
deriving DecidableEq, Repr

/-- The loop's `max_tasks` bound check:
`max_tasks is not None and tasks_completed + tasks_failed >= max_tasks`. -/
def maxTasksReached (maxTasks : Option Nat) (k : Nat) : Bool :=
  match maxTasks with
  | some n => decide (n ≤ k)
  | Option.none => false

/-- The `while self._running` body of `run_worker_loop`: at each iteration
first the `max_tasks` check, then receive; a shutdown breaks the loop (with
`shutdown_received=True`), a task emits `busy`, runs the handler, pushes the
report (`success` per the handler), emits `ready` and updates the counters;
any other parsed message just continues.  Returns the emitted trace, the
`shutdown_received` flag and the completed/failed counters. -/
def workerLoopBody (handler : TaskMessage → Bool × String)
    (maxTasks : Option Nat) :
    List (Option Msg) → Nat → Nat → List WorkerEvent × Bool × Nat × Nat
  | [], completed, failed => ([], false, completed, failed)
  | m :: rest, completed, failed =>
    if maxTasksReached maxTasks (completed + failed) then
      ([], false, completed, failed)
    else match m with
      | Option.none => workerLoopBody handler maxTasks rest completed failed
      | some (.shutdown _) => ([], true, completed, failed)
      | some (.task t) =>
        let success := (handler t).1
        let out := workerLoopBody handler maxTasks rest
          (if success then completed + 1 else completed)
          (if success then failed else failed + 1)
        ([.status "busy", .report t.task_id success, .status "ready"]
            ++ out.1,
          out.2)
      | some _ => workerLoopBody handler maxTasks rest completed failed

/-- `run_worker_loop` (after a successful `connect`): emit `started`, run the
loop body, then emit `stopped`. -/
def run_worker_loop (handler : TaskMessage → Bool × String)
    (maxTasks : Option Nat) (inputs : List (Option Msg)) :
    List WorkerEvent × Bool × Nat × Nat :=
  let out := workerLoopBody handler maxTasks inputs 0 0
  ([.status "started"] ++ out.1 ++ [.status "stopped"], out.2)

/-! ## Observer subscriber queue (`app/monitor/services/pubsub_listener.py`) -/

/-- Enqueue one monitor envelope into the subscriber's bounded FIFO
(`Queue(maxsize=cap)`): `put_nowait`, and when the queue is full, drop the
oldest entry (`get_nowait`) and enqueue the new one.  (The `except Empty:
pass` branch of the source is unreachable with a positive capacity: a full
queue is non-empty.) -/
def listenerEnqueue {α : Type} (cap : Nat) (q : List α) (m : α) : List α :=
  if q.length < cap then q ++ [m] else q.drop 1 ++ [m]

/-- The queue contents after `_listen_loop` has delivered the envelopes `ms`,
in arrival order, into a queue currently holding `q`. -/
def listenFold {α : Type} (cap : Nat) (q : List α) (ms : List α) : List α :=
  ms.foldl (listenerEnqueue cap) q

/-! ## Dictionary and store lemmas -/

theorem dget_dremove_self (d : PyDict) (k : String) :
    dget (dremove d k) k = Option.none := by
  induction d with
  | nil => rfl
  | cons kv rest ih =>
    by_cases h : kv.1 = k
    · simpa [dremove, List.filter, h] using ih
    · simpa [dremove, List.filter, h, dget, Ne.symm h] using ih

theorem dget_dremove_ne (d : PyDict) (k k' : String) (h : k' ≠ k) :
    dget (dremove d k) k' = dget d k' := by
  induction d with
  | nil => rfl
  | cons kv rest ih =>
    by_cases h2 : kv.1 = k
    · have h3 : ¬ k' = kv.1 := fun hc => h (hc.trans h2)
      simpa [dremove, List.filter, h2, dget, h3, h] using ih
    · by_cases h3 : k' = kv.1
      · simp [dremove, List.filter, h2, dget, h3]
      · simpa [dremove, List.filter, h2, dget, h3] using ih

theorem dget_append_last (a : PyDict) (k : String) (v : PyValue)
    (h : dget a k = Option.none) : dget (a ++ [(k, v)]) k = some v := by
  induction a with
  | nil => simp [dget]
  | cons kv rest ih =>
    by_cases h2 : k = kv.1
    · simp [dget, h2] at h
    · simp only [dget, h2, if_false, List.cons_append, if_neg h2] at h ⊢
      exact ih h

theorem dget_prefix_some (a b : PyDict) (k : String) (v : PyValue)
    (h : dget a k = some v) : dget (a ++ b) k = some v := by
  induction a with
  | nil => simp [dget] at h
  | cons kv rest ih =>
    by_cases h2 : k = kv.1
    · simp only [dget, h2, if_pos rfl, List.cons_append, if_true] at h ⊢
      simpa [dget, h2] using h
    · simp only [dget, if_neg h2, List.cons_append] at h ⊢
      exact ih h

theorem dget_dset_self (d : PyDict) (k : String) (v : PyValue) :
    dget (dset d k v) k = some v := by
  simpa [dset] using dget_append_last (dremove d k) k v (dget_dremove_self d k)

theorem dget_append_last_ne (a : PyDict) (k k' : String) (v : PyValue)
    (h : k' ≠ k) : dget (a ++ [(k, v)]) k' = dget a k' := by
  induction a with
  | nil => simp [dget, h]
  | cons kv rest ih =>
    by_cases h2 : k' = kv.1
    · simp [dget, h2]
    · simpa [dget, h2] using ih

theorem dget_dset_ne (d : PyDict) (k k' : String) (v : PyValue)
    (h : k' ≠ k) : dget (dset d k v) k' = dget d k' := by
  rw [dset, dget_append_last_ne _ _ _ _ h, dget_dremove_ne _ _ _ h]

theorem listAt_rpush_self (s : RedisStore) (q : String) (v : PyValue) :
    (s.rpush q v).listAt q = s.listAt q ++ [v] := by
  simp [RedisStore.rpush, RedisStore.listAt, RedisStore.setKey, dget_dset_self]

theorem listAt_rpush_ne (s : RedisStore) (q q' : String) (v : PyValue)
    (h : q' ≠ q) : (s.rpush q v).listAt q' = s.listAt q' := by
  simp [RedisStore.rpush, RedisStore.listAt, RedisStore.setKey,
    dget_dset_ne _ _ _ _ h]

theorem get_del_self (s : RedisStore) (k : String) :
    (s.del k).get k = Option.none := by
  simp [RedisStore.del, RedisStore.get, dget_dremove_self]

theorem get_del_ne (s : RedisStore) (k k' : String) (h : k' ≠ k) :
    (s.del k).get k' = s.get k' := by
  simp [RedisStore.del, RedisStore.get, dget_dremove_ne _ _ _ h]

theorem get_foldl_del (ks : List String) (s : RedisStore) (k : String) :
    (ks.foldl (fun st x => st.del x) s).get k =
      if k ∈ ks then Option.none else s.get k := by
  induction ks generalizing s with
  | nil => simp
  | cons a rest ih =>
    by_cases h1 : k = a
    · subst h1
      by_cases h2 : k ∈ rest <;>
        simp [List.foldl_cons, ih, h2, get_del_self]
    · by_cases h2 : k ∈ rest <;>
        simp [List.foldl_cons, ih, h2, h1, get_del_ne _ _ _ h1]

theorem published_foldl_del (ks : List String) (s : RedisStore) :
    (ks.foldl (fun st x => st.del x) s).published = s.published := by
  induction ks generalizing s with
  | nil => rfl
  | cons a rest ih => simpa [RedisStore.del] using ih (s.del a)

/-! ## Codec round-trip lemmas -/

theorem task_fromDict_toDict (now mid tid : String) (m : TaskMessage) :
    TaskMessage.fromDict now mid tid m.toDict =
      some (m.withFreshTaskId tid) := rfl

theorem report_fromDict_toDict (now mid : String) (m : ReportMessage) :
    ReportMessage.fromDict now mid m.toDict = some m := rfl

theorem shutdown_fromDict_toDict (now mid : String)
    (m : ShutdownMessage) : ShutdownMessage.fromDict now mid m.toDict = some m :=
  rfl

theorem status_fromDict_toDict (now mid : String) (m : StatusMessage) :
    StatusMessage.fromDict now mid m.toDict = some m := rfl

theorem parse_message_task (now mid tid : String) (m : TaskMessage) :
    parse_message now mid tid (Msg.task m).toDict =
      some (.task (m.withFreshTaskId tid)) := rfl

theorem parse_message_report (now mid tid : String) (m : ReportMessage) :
    parse_message now mid tid (Msg.report m).toDict = some (.report m) := rfl

theorem parse_message_shutdown (now mid tid : String) (m : ShutdownMessage) :
    parse_message now mid tid (Msg.shutdown m).toDict =
      some (.shutdown m) := rfl

theorem parse_message_status (now mid tid : String) (m : StatusMessage) :
    parse_message now mid tid (Msg.status m).toDict = some (.status m) := rfl

theorem mapM_loop_asStr (l : List String) (acc : List String) :
    List.mapM.loop PyValue.asStr (l.map .str) acc =
      some (acc.reverse ++ l) := by
  induction l generalizing acc with
  | nil => simp [List.mapM.loop]
  | cons a rest ih => simp [List.mapM.loop, PyValue.asStr, ih]

theorem config_fromDict_toDict (c : OrchestrationConfig) :
    OrchestrationConfig.fromDict c.toDict = some c := by
  simp [OrchestrationConfig.fromDict, OrchestrationConfig.toDict,
    OrchestrationConfig.fieldNames, dget, PyValue.asStr, PyValue.asInt,
    PyValue.asStrList, mapM_loop_asStr, List.mapM]

/-! ## Sequence-allocation lemmas -/

theorem findAvailSeqAux_some (keyExists : String → Bool) (pfx : String) :
    ∀ (fuel st n : Nat), findAvailSeqAux keyExists pfx st fuel = some n →
      st ≤ n ∧ n < st + fuel ∧ keyExists (seqConfigKey pfx n) = false ∧
        ∀ m, st ≤ m → m < n → keyExists (seqConfigKey pfx m) = true := by
  intro fuel
  induction fuel with
  | zero => intro st n h; simp [findAvailSeqAux] at h
  | succ f ih =>
    intro st n h
    rw [findAvailSeqAux] at h
    by_cases hk : keyExists (seqConfigKey pfx st) = true
    · rw [if_pos hk] at h
      obtain ⟨h1, h2, h3, h4⟩ := ih (st + 1) n h
      refine ⟨by omega, by omega, h3, fun m hm1 hm2 => ?_⟩
      by_cases hm : m = st
      · exact hm ▸ hk
      · exact h4 m (by omega) hm2
    · rw [if_neg hk] at h
      cases h
      exact ⟨le_refl st, by omega, by simpa using hk,
        fun m hm1 hm2 => absurd (lt_of_le_of_lt hm1 hm2) (lt_irrefl st)⟩

theorem findAvailSeqAux_none (keyExists : String → Bool) (pfx : String) :
    ∀ (fuel st : Nat),
      (∀ m, st ≤ m → m < st + fuel → keyExists (seqConfigKey pfx m) = true) →
      findAvailSeqAux keyExists pfx st fuel = Option.none := by
  intro fuel
  induction fuel with
  | zero => intro st _; rfl
  | succ f ih =>
    intro st h
    rw [findAvailSeqAux, if_pos (h st (le_refl st) (by omega))]
    exact ih (st + 1) (fun m hm1 hm2 => h m (by omega) (by omega))

/-! ## Broadcast fan-out lemmas -/

theorem foldl_push_flags (v : PyValue) :
    ∀ (L : List String) (acc : List Bool) (s : RedisStore),
      L.foldl (fun (a : List Bool × RedisStore) q =>
          (a.1 ++ [true], a.2.rpush q v)) (acc, s) =
        (acc ++ List.replicate L.length true,
         L.foldl (fun st q => st.rpush q v) s) := by
  intro L
  induction L with
  | nil => intro acc s; simp
  | cons a rest ih =>
    intro acc s
    simp only [List.foldl_cons, ih, List.length_cons, List.replicate_succ]
    rw [List.append_cons acc true (List.replicate rest.length true)]

theorem listAt_foldl_rpush (v : PyValue) :
    ∀ (L : List String) (s : RedisStore) (q : String),
      (L.foldl (fun st x => st.rpush x v) s).listAt q =
        s.listAt q ++ List.replicate (L.count q) v := by
  intro L
  induction L with
  | nil => intro s q; simp [List.count]
  | cons a rest ih =>
    intro s q
    rw [List.foldl_cons, ih]
    by_cases h : q = a
    · subst h
      rw [listAt_rpush_self, List.count_cons_self, List.append_assoc,
        List.singleton_append, ← List.replicate_succ]
    · have hc : List.count q (a :: rest) = List.count q rest := by
        simp [List.count_cons, h, Ne.symm h]
      rw [listAt_rpush_ne _ _ _ _ h, hc]

/-- In-range Python indexing agrees with `List.get?`. -/
theorem pyIndex_nonneg {α : Type} (l : List α) (i : Int) (h0 : 0 ≤ i)
    (hl : i < (l.length : Int)) : pyIndex l i = l.get? i.toNat := by
  have hnot : ¬ i < 0 := by omega
  have hb : i.toNat < l.length := by omega
  simp only [pyIndex, if_neg hnot, dif_pos (And.intro h0 hl)]
  rw [List.get?_eq_get hb]

/-! ## Bounded-subscriber-queue lemma -/

theorem listenFold_drop {α : Type} (cap : Nat) (hcap : 1 ≤ cap) :
    ∀ (ms q : List α), q.length ≤ cap →
      listenFold cap q ms = (q ++ ms).drop ((q ++ ms).length - cap)
  | [], q, hq => by
    have h0 : q.length - cap = 0 := by omega
    simp [listenFold, h0]
  | m :: rest, q, hq => by
    rw [listenFold, List.foldl_cons, ← listenFold]
    by_cases h : q.length < cap
    · have h1 : (q ++ [m]).length ≤ cap := by simp; omega
      rw [show listenerEnqueue cap q m = q ++ [m] from if_pos h,
        listenFold_drop cap hcap rest (q ++ [m]) h1, List.append_assoc]
      rfl
    · have hq2 : q.length = cap := le_antisymm hq (not_lt.mp h)
      cases q with
      | nil => simp at hq2; omega
      | cons hd tl =>
        have hlen : tl.length + 1 = cap := by simpa using hq2
        have h1 : (tl ++ [m]).length ≤ cap := by simp; omega
        rw [show listenerEnqueue cap (hd :: tl) m = (hd :: tl).drop 1 ++ [m]
            from if_neg h,
          List.drop_one, List.tail_cons,
          listenFold_drop cap hcap rest (tl ++ [m]) h1]
      -- both sides are drops of the same tail
        have e1 : (tl ++ [m] ++ rest).length - cap = rest.length := by
          simp; omega
        have e2 : ((hd :: tl) ++ m :: rest).length - cap = rest.length + 1 := by
          simp; omega
        rw [e1, e2, List.cons_append, List.drop_succ_cons, List.append_assoc,
          List.singleton_append]

/-! ## Worker-loop correspondence

`dispatchedTasks` is a declarative description (independent of the loop's
internal counters and emissions) of which tasks the worker loop dispatches
from a given input sequence: the task messages in order, cut off by a
shutdown envelope or by the `max_tasks` bound (`k` is the number of tasks
already dispatched). -/

/-- The tasks `run_worker_loop` dispatches, having already dispatched `k`. -/
def dispatchedTasks (maxTasks : Option Nat) :
    List (Option Msg) → Nat → List TaskMessage
  | [], _ => []
  | m :: rest, k =>
    if maxTasksReached maxTasks k then []
    else match m with
      | some (.task t) => t :: dispatchedTasks maxTasks rest (k + 1)
      | some (.shutdown _) => []
      | _ => dispatchedTasks maxTasks rest k

/-- The loop body emits, for each dispatched task in order, exactly the
segment `busy`, report (success as decided by the handler), `ready`. -/
theorem workerLoopBody_trace (handler : TaskMessage → Bool × String)
    (maxTasks : Option Nat) :
    ∀ (inputs : List (Option Msg)) (completed failed : Nat),
      (workerLoopBody handler maxTasks inputs completed failed).1 =
        (dispatchedTasks maxTasks inputs (completed + failed)).flatMap
          (fun t => [.status "busy", .report t.task_id (handler t).1,
                     .status "ready"]) := by
  intro inputs
  induction inputs with
  | nil => intro completed failed; simp [workerLoopBody, dispatchedTasks]
  | cons m rest ih =>
    intro completed failed
    rw [workerLoopBody.eq_def, dispatchedTasks.eq_def]
    by_cases hh : maxTasksReached maxTasks (completed + failed) = true
    · simp [hh]
    · simp only [hh, if_false, Bool.false_eq_true]
      match m with
      | Option.none => simpa using ih completed failed
      | some (.shutdown sd) => simp
      | some (.report r) => simpa using ih completed failed
      | some (.status st) => simpa using ih completed failed
      | some (.task t) =>
        by_cases hs : (handler t).1 = true
        · have := ih (completed + 1) failed
          simp only [hs, if_true] at this ⊢
          simp only [List.flatMap_cons, this]
          have harith : completed + 1 + failed = completed + failed + 1 := by
            omega
          simp [harith, hs]
        · have hs2 : (handler t).1 = false := by
            cases h2 : (handler t).1
            · rfl
            · exact absurd h2 hs
          have := ih completed (failed + 1)
          simp only [hs2, if_false, Bool.false_eq_true] at this ⊢
          simp only [List.flatMap_cons, this]
          have harith : completed + (failed + 1) = completed + failed + 1 := by
            omega
          simp [harith, hs2]

/-! ## Cleanup lemmas -/

theorem get_publish (s : RedisStore) (ch : String) (p : PyValue) (k : String) :
    (s.publish ch p).get k = s.get k := rfl

/-- `cleanup_session` always deletes the descriptor key
`f"{config.prefix}:config"`. -/
theorem cleanupWithConfig_get_config (s : RedisStore) (now : String)
    (cfg : OrchestrationConfig) :
    (cleanupWithConfig s now cfg).2.get (cfg.pfx ++ ":config") =
      Option.none := by
  simp only [cleanupWithConfig]
  by_cases h : cfg.mode = "summoner" ∧ cfg.monitor_channel ≠ ""
  · rw [if_pos h, get_publish, get_foldl_del]
    simp
  · rw [if_neg h, get_foldl_del]
    simp

/-- `cleanupWithConfig` literally returns `True` paired with the mutated
store. -/
theorem cleanupWithConfig_fst (s : RedisStore) (now : String)
    (cfg : OrchestrationConfig) : (cleanupWithConfig s now cfg).1 = true := rfl

/-! ## Demo fixtures (concrete witnesses and counterexamples) -/

/-- An empty store. -/
def emptyStore : RedisStore := { entries := [], published := [] }

/-- A summoner-mode descriptor with two worker slots, as
`initialize_summoner_orchestration` lays it out for session id `sid-1`. -/
def demoCfg : OrchestrationConfig :=
  { session_id := "sid-1", pfx := "summoner:sid-1", max_children := 2,
    created_at := "2026-01-01T00:00:00+0000",
    parent_to_child_lists := ["summoner:sid-1:tasks:1",
                              "summoner:sid-1:tasks:2"],
    child_to_parent_lists := ["summoner:sid-1:reports"],
    status_stream := "summoner:sid-1:status",
    result_stream := "summoner:sid-1:results",
    control_list := "summoner:sid-1:control",
    monitor_channel := "summoner:sid-1:monitor", mode := "summoner" }

/-- A store holding exactly the descriptor of `demoCfg`. -/
def demoStore0 : RedisStore :=
  { entries := [("summoner:sid-1:config", .dict demoCfg.toDict)],
    published := [] }

/-- The cleanup event published for `demoCfg` at timestamp `ts`. -/
def demoCleanupEvent (ts : String) : PyValue :=
  .dict [("event", .str "cleanup"), ("session_id", .str "sid-1"),
         ("timestamp", .str ts)]

/-- `demoStore0` after one `cleanup_session` at timestamp `t1`. -/
def demoStore1 : RedisStore :=
  { entries := [],
    published := [("summoner:sid-1:monitor", demoCleanupEvent "t1")] }

/-- `demoStore1` after a second `cleanup_session` at timestamp `t2`. -/
def demoStore2 : RedisStore :=
  { entries := [],
    published := [("summoner:sid-1:monitor", demoCleanupEvent "t1"),
                  ("summoner:sid-1:monitor", demoCleanupEvent "t2")] }

/-- The `EXISTS` probe for a store pre-populated with the `proj-host-001` and
`proj-host-003` config keys (scenario C of the spec). -/
def demoKeyExists (k : String) : Bool :=
  ["proj-host-001:config", "proj-host-003:config"].contains k

/-- A concrete task for worker slot 1. -/
def demoTask1 : TaskMessage :=
  TaskMessage.create "n1" "m1" "t1" "p1" "sid-1" 1 Option.none 3 Option.none

/-- A second concrete task for worker slot 1. -/
def demoTask2 : TaskMessage :=
  TaskMessage.create "n2" "m2" "t2" "p2" "sid-1" 1 Option.none 3 Option.none

/-- The task `send_task` builds for `child_id=0` in the C9 evaluation. -/
def demoTask0 : TaskMessage :=
  TaskMessage.create "n" "m" "t" "p" "sid-1" 0 Option.none 3 Option.none

/-- The task decoded from the instruction-alias payload of C5. -/
def demoAliasTask : TaskMessage :=
  TaskMessage.initKw "now" "mid" "tid" Option.none Option.none Option.none
    Option.none Option.none (some (.str "hello")) Option.none Option.none
    Option.none

/-! ## Claim theorems -/

/-- C1: `MoogleScenario.send_shutdown` with `target_child_id=None` pushes
exactly one shutdown envelope onto each task queue (a queue named `q` gains
one copy per occurrence of `q` among the task-queue names, i.e. exactly one
since the provisioned names are pairwise distinct), and with
`target_child_id=k` (1 ≤ k ≤ M) pushes one shutdown envelope onto the k-th
task queue and touches no other queue. -/
theorem spec_C1_shutdown_fanout :
    (∀ (s : RedisStore) (cfg : OrchestrationConfig) (sid reason : String)
        (graceful : Bool) (now mid : String),
      ∃ s', moogle_send_shutdown s cfg sid reason graceful Option.none now mid
          = .ok (List.replicate cfg.parent_to_child_lists.length true, s') ∧
        ∀ q, s'.listAt q = s.listAt q ++
          List.replicate (cfg.parent_to_child_lists.count q)
            (.dict (ShutdownMessage.create now mid sid reason graceful
              Option.none).toDict))
  ∧ (∀ (s : RedisStore) (cfg : OrchestrationConfig) (sid reason : String)
        (graceful : Bool) (now mid : String) (k : Int),
      1 ≤ k → k ≤ (cfg.parent_to_child_lists.length : Int) →
      ∃ q s', cfg.parent_to_child_lists.get? (k - 1).toNat = some q ∧
        moogle_send_shutdown s cfg sid reason graceful (some k) now mid =
          .ok ([true], s') ∧
        s'.listAt q = s.listAt q ++
          [.dict (ShutdownMessage.create now mid sid reason graceful
            (some k)).toDict] ∧
        ∀ q', q' ≠ q → s'.listAt q' = s.listAt q') := by
  constructor
  · intro s cfg sid reason graceful now mid
    refine ⟨cfg.parent_to_child_lists.foldl
      (fun st x => st.rpush x (.dict (ShutdownMessage.create now mid sid
        reason graceful Option.none).toDict)) s, ?_, ?_⟩
    · rw [moogle_send_shutdown]
      rw [foldl_push_flags]
      simp
    · intro q
      exact listAt_foldl_rpush _ cfg.parent_to_child_lists s q
  · intro s cfg sid reason graceful now mid k hk1 hk2
    have hidx := pyIndex_nonneg cfg.parent_to_child_lists (k - 1)
      (by omega) (by omega)
    rcases hq : cfg.parent_to_child_lists.get? (k - 1).toNat with _ | q
    · rw [hq] at hidx
      have hb : (k - 1).toNat < cfg.parent_to_child_lists.length := by omega
      rw [List.get?_eq_get hb] at hq
      cases hq
    · refine ⟨q, s.rpush q (.dict (ShutdownMessage.create now mid sid reason
          graceful (some k)).toDict), rfl, ?_, ?_, ?_⟩
      · rw [moogle_send_shutdown]
        rw [hidx, hq]
      · exact listAt_rpush_self s q _
      · intro q' hne
        exact listAt_rpush_ne s q q' _ hne

/-- C1 witness: targeted shutdown to slot 1 of the two-slot `demoCfg`. -/
theorem spec_C1_shutdown_fanout_witness :
    ∃ q s', demoCfg.parent_to_child_lists.get? ((1 : Int) - 1).toNat = some q ∧
      moogle_send_shutdown emptyStore demoCfg "sid-1" "normal" true
        (some 1) "n" "m" = .ok ([true], s') ∧
      s'.listAt q = emptyStore.listAt q ++
        [.dict (ShutdownMessage.create "n" "m" "sid-1" "normal" true
          (some 1)).toDict] ∧
      ∀ q', q' ≠ q → s'.listAt q' = emptyStore.listAt q' :=
  spec_C1_shutdown_fanout.2 emptyStore demoCfg "sid-1" "normal" true "n" "m" 1
    (by norm_num) (by norm_num [demoCfg])

/-- C2: sequenced-mode creation chooses the lowest `NNN` in 1..100 whose
config key does not exist; when every number is occupied it fails with the
"no available sequence" error; and with `proj-host-001`/`proj-host-003`
occupied the chosen session prefix is `proj-host-002`. -/
theorem spec_C2_sequenced_allocation :
    (∀ (keyExists : String → Bool) (pfx : String) (n : Nat),
      find_available_sequence keyExists pfx 100 = some n →
        1 ≤ n ∧ n ≤ 100 ∧ keyExists (seqConfigKey pfx n) = false ∧
        ∀ m, 1 ≤ m → m < n → keyExists (seqConfigKey pfx m) = true)
  ∧ (∀ (keyExists : String → Bool) (pfx : String),
      (∀ m, 1 ≤ m → m ≤ 100 → keyExists (seqConfigKey pfx m) = true) →
      find_available_sequence keyExists pfx 100 = Option.none)
  ∧ chosenSessionPfx demoKeyExists "proj-host" = some "proj-host-002" := by
  refine ⟨?_, ?_, by decide⟩
  · intro keyExists pfx n h
    obtain ⟨h1, h2, h3, h4⟩ := findAvailSeqAux_some keyExists pfx 100 1 n h
    exact ⟨h1, by omega, h3, fun m hm1 hm2 => h4 m hm1 hm2⟩
  · intro keyExists pfx h
    exact findAvailSeqAux_none keyExists pfx 100 1
      (fun m hm1 hm2 => h m hm1 (by omega))

/-- C2 witness: in the pre-populated demo store the probe returns sequence 2,
which is free while sequence 1 is occupied. -/
theorem spec_C2_sequenced_allocation_witness :
    1 ≤ 2 ∧ 2 ≤ 100 ∧ demoKeyExists (seqConfigKey "proj-host" 2) = false ∧
      ∀ m, 1 ≤ m → m < 2 → demoKeyExists (seqConfigKey "proj-host" m) = true :=
  spec_C2_sequenced_allocation.1 demoKeyExists "proj-host" 2 (by decide)

/-- C3 counterexample: invoked with a descriptor *object*, `cleanup_session`
never checks whether the descriptor still exists — a second invocation after a
successful cleanup returns `True` again (the claim requires `False`) and
publishes a second cleanup event (a side effect), even though the descriptor
key is already gone. -/
theorem spec_C3_counterexample :
    cleanup_session demoStore0 "t1" (some demoCfg) Option.none Option.none =
      .ok (true, demoStore1)
  ∧ demoStore1.get "summoner:sid-1:config" = Option.none
  ∧ cleanup_session demoStore1 "t2" (some demoCfg) Option.none Option.none =
      .ok (true, demoStore2)
  ∧ demoStore2.published.length = 2 :=
  ⟨rfl, rfl, rfl, rfl⟩

/-- C3 amended: when `cleanup_session` is given a `prefix` (or `session_id`),
it returns `True` exactly when a decodable descriptor existed at the config
key when cleanup began, and — provided the stored descriptor's `prefix`
attribute matches the lookup prefix, as every descriptor written by the
session manager does — a second invocation after a successful cleanup returns
`False` with no side effects (the store is returned unchanged).  When given a
descriptor *object*, however, cleanup returns `True` unconditionally and
repeats its deletions and cleanup publish. -/
theorem spec_C3_cleanup_idempotence_amended :
    (∀ (s : RedisStore) (now : String) (pfx : String),
      get_config s (some pfx) Option.none = .ok Option.none →
      cleanup_session s now Option.none (some pfx) Option.none =
        .ok (false, s))
  ∧ (∀ (s : RedisStore) (now : String) (pfx : String)
        (cfg : OrchestrationConfig),
      get_config s (some pfx) Option.none = .ok (some cfg) →
      ∃ s', cleanup_session s now Option.none (some pfx) Option.none =
          .ok (true, s') ∧
        (cfg.pfx = pfx → ∀ now',
          cleanup_session s' now' Option.none (some pfx) Option.none =
            .ok (false, s')))
  ∧ (∀ (s : RedisStore) (now : String) (cfg : OrchestrationConfig),
      ∃ s', cleanup_session s now (some cfg) Option.none Option.none =
        .ok (true, s')) := by
  have unf : ∀ (s : RedisStore) (now pfx : String),
      cleanup_session s now Option.none (some pfx) Option.none =
        (match get_config s (some pfx) Option.none with
          | .error e => .error e
          | .ok Option.none => .ok (false, s)
          | .ok (some cfg) => .ok (cleanupWithConfig s now cfg)) :=
    fun _ _ _ => rfl
  refine ⟨?_, ?_, ?_⟩
  · intro s now pfx h
    rw [unf, h]
  · intro s now pfx cfg h
    refine ⟨(cleanupWithConfig s now cfg).2, ?_, ?_⟩
    · rw [unf, h]
      rfl
    · intro hpfx now'
      have hget : (cleanupWithConfig s now cfg).2.get (pfx ++ ":config") =
          Option.none := by
        rw [← hpfx]; exact cleanupWithConfig_get_config s now cfg
      have hgc : get_config (cleanupWithConfig s now cfg).2 (some pfx)
          Option.none = .ok Option.none := by
        have unf2 : get_config (cleanupWithConfig s now cfg).2 (some pfx)
            Option.none =
              (match (cleanupWithConfig s now cfg).2.get (pfx ++ ":config")
                with
                | Option.none => .ok Option.none
                | some (.dict d) => .ok (OrchestrationConfig.fromDict d)
                | some _ => .ok Option.none) := rfl
        rw [unf2, hget]
      rw [unf, hgc]
  · intro s now cfg
    exact ⟨(cleanupWithConfig s now cfg).2, rfl⟩

/-- C3 amended witness: on a store without the descriptor, prefix-cleanup
returns `False` and leaves the store untouched. -/
theorem spec_C3_cleanup_idempotence_amended_witness :
    cleanup_session emptyStore "t" Option.none (some "p") Option.none =
      .ok (false, emptyStore) :=
  spec_C3_cleanup_idempotence_amended.1 emptyStore "t" "p" rfl

/-- C4: decoding the encoding of every envelope variant is the identity —
for tasks modulo the default-filled `task_id` (the decoder re-runs
`__post_init__`, so a falsy `task_id`, which no factory-built message has,
would be refilled); a session descriptor round-trips through the codec
unchanged. -/
theorem spec_C4_codec_roundtrip :
    (∀ (now mid tid : String) (t : TaskMessage), t.task_id.falsy = false →
      parse_message now mid tid (Msg.task t).toDict = some (.task t))
  ∧ (∀ (now mid tid : String) (r : ReportMessage),
      parse_message now mid tid (Msg.report r).toDict = some (.report r))
  ∧ (∀ (now mid tid : String) (sd : ShutdownMessage),
      parse_message now mid tid (Msg.shutdown sd).toDict =
        some (.shutdown sd))
  ∧ (∀ (now mid tid : String) (st : StatusMessage),
      parse_message now mid tid (Msg.status st).toDict = some (.status st))
  ∧ (∀ c : OrchestrationConfig,
      OrchestrationConfig.fromDict c.toDict = some c) := by
  refine ⟨?_, parse_message_report, parse_message_shutdown,
    parse_message_status, config_fromDict_toDict⟩
  intro now mid tid t h
  rw [parse_message_task]
  simp [TaskMessage.withFreshTaskId, h]

/-- C4 witness: the concrete task `demoTask1` (non-falsy `task_id`)
round-trips. -/
theorem spec_C4_codec_roundtrip_witness :
    parse_message "n" "m" "tid" (Msg.task demoTask1).toDict =
      some (.task demoTask1) :=
  spec_C4_codec_roundtrip.1 "n" "m" "tid" demoTask1 (by decide)

/-- C5: whenever a task payload carries an `instruction` field, the decoded
object's `prompt` is that value (so `instruction` wins also when both fields
are present); decoding the payload `type=task, instruction="hello"` yields
`prompt == "hello"`. -/
theorem spec_C5_instruction_alias :
    (∀ (now mid tid : String) (d : PyDict) (t : TaskMessage) (v : PyValue),
      dget d "instruction" = some v →
      TaskMessage.fromDict now mid tid d = some t → t.prompt = v)
  ∧ (∃ t, parse_message "now" "mid" "tid"
        [("type", .str "task"), ("instruction", .str "hello")] =
        some (.task t) ∧ t.prompt = .str "hello")
  ∧ (∃ t, parse_message "now" "mid" "tid"
        [("type", .str "task"), ("prompt", .str "p"),
         ("instruction", .str "hello")] =
        some (.task t) ∧ t.prompt = .str "hello") := by
  refine ⟨?_, ⟨demoAliasTask, by decide, by decide⟩,
    ⟨demoAliasTask, by decide, by decide⟩⟩
  intro now mid tid d t v hins hdec
  rw [TaskMessage.fromDict] at hdec
  have hins2 : dget (dremove d "type") "instruction" = some v := by
    rw [dget_dremove_ne d "type" "instruction" (by decide)]
    exact hins
  rw [hins2] at hdec
  by_cases hkeys : ((dset (dremove (dremove d "type") "instruction") "prompt"
      v).all (fun kv => kv.1 ∈ TaskMessage.kwargNames)) = true
  · rw [if_pos hkeys] at hdec
    cases hdec
    simp [TaskMessage.initKw, dget_dset_self]
  · rw [if_neg hkeys] at hdec
    cases hdec

/-- C5 witness: decoding the instruction-only payload gives
`prompt == "hello"`. -/
theorem spec_C5_instruction_alias_witness : demoAliasTask.prompt = .str "hello" :=
  spec_C5_instruction_alias.1 "now" "mid" "tid"
    [("instruction", .str "hello")] demoAliasTask (.str "hello") rfl rfl

/-- C6 as stated (spec-side formalisation): each dispatched task's
processing begins with its own `started` status emission, so a run that
dispatches k tasks emits at least k `started` statuses. -/
def claimC6PerTaskStarted : Prop :=
  ∀ (handler : TaskMessage → Bool × String) (maxT : Option Nat)
    (inputs : List (Option Msg)),
    (dispatchedTasks maxT inputs 0).length ≤
      (run_worker_loop handler maxT inputs).1.count (WorkerEvent.status "started")

/-- C6 counterexample: a run dispatching the two concrete tasks emits exactly
one `started` status (at loop start), not one per task — the per-task status
is `busy`. -/
theorem spec_C6_counterexample : ¬ claimC6PerTaskStarted := by
  intro h
  have h2 := h (fun _ => (true, "")) Option.none
    [some (.task demoTask1), some (.task demoTask2)]
  revert h2
  decide

/-- C6 amended: for every task the worker loop dispatches, in order, it
emits a `busy` status, invokes the handler, pushes the report (success or
failure as the handler decides), then emits a `ready` status; a single
`started` status is emitted once when the loop begins and a `stopped` status
once when it exits. -/
theorem spec_C6_worker_trace_amended :
    ∀ (handler : TaskMessage → Bool × String) (maxT : Option Nat)
      (inputs : List (Option Msg)),
      (run_worker_loop handler maxT inputs).1 =
        [WorkerEvent.status "started"]
          ++ (dispatchedTasks maxT inputs 0).flatMap
              (fun t => [.status "busy", .report t.task_id (handler t).1,
                         .status "ready"])
          ++ [WorkerEvent.status "stopped"] := by
  intro handler maxT inputs
  simp [run_worker_loop, workerLoopBody_trace handler maxT inputs 0 0]

/-- C7 counterexample: with 3 seconds of budget remaining, the per-call
blocking timeout is `min(5, int(3) + 1) = 4`, which exceeds
`min(5, remaining) = 3` — the claimed bound does not hold. -/
theorem spec_C7_counterexample :
    ¬ ((perCallTimeout 3 : ℚ) ≤ min 5 (3 : ℚ)) := by
  have h : perCallTimeout 3 = 4 := by decide
  rw [h]
  norm_num

/-- C7 amended: each per-call blocking timeout is at most 5 seconds and at
most one second above the remaining overall budget (it is
`min(5, int(remaining) + 1)`), so the loop can overshoot the overall deadline
by less than one extra second per final call but never blocks longer than
5 s at a time. -/
theorem spec_C7_per_call_timeout_amended :
    ∀ remaining : ℚ, 0 < remaining →
      perCallTimeout remaining ≤ 5 ∧
      (perCallTimeout remaining : ℚ) ≤ remaining + 1 := by
  intro r hr
  refine ⟨min_le_left _ _, ?_⟩
  have h1 : pyTrunc r = ⌊r⌋ := if_pos (le_of_lt hr)
  have h2 : perCallTimeout r ≤ ⌊r⌋ + 1 := by
    rw [perCallTimeout, h1]; exact min_le_right _ _
  calc (perCallTimeout r : ℚ) ≤ ((⌊r⌋ + 1 : ℤ) : ℚ) := by exact_mod_cast h2
    _ ≤ r + 1 := by push_cast; linarith [Int.floor_le r]

/-- C7 amended witness: at 3 s remaining the per-call timeout is within both
bounds. -/
theorem spec_C7_per_call_timeout_amended_witness :
    perCallTimeout 3 ≤ 5 ∧ (perCallTimeout 3 : ℚ) ≤ 3 + 1 :=
  spec_C7_per_call_timeout_amended 3 (by norm_num)

/-- C8: the subscriber's bounded FIFO (capacity 1000) never exceeds 1000
entries, and after any arrival sequence it holds exactly the most recent
min(n, 1000) envelopes in arrival order — when an envelope arrives on a full
queue the oldest is dropped. -/
theorem spec_C8_bounded_fifo :
    ∀ {α : Type} (ms : List α),
      (listenFold 1000 ([] : List α) ms).length ≤ 1000 ∧
      listenFold 1000 ([] : List α) ms = ms.drop (ms.length - 1000) := by
  intro α ms
  have h := listenFold_drop 1000 (by norm_num) ms [] (by simp)
  simp only [List.nil_append, List.length_nil, Nat.zero_add] at h
  refine ⟨?_, h⟩
  rw [h, List.length_drop]
  omega

/-- C9: `MoogleScenario.send_task` performs no `child_id` range check.  At
the failing input `child_id=0` (below the valid range) Python's negative
indexing selects the *last* task queue: the call returns success and pushes
the task onto slot 2's queue of the two-slot `demoCfg` (and mirrors it to the
monitor channel) instead of rejecting with a false/null result; at
`child_id=3` (above the range) it raises an uncaught `IndexError` instead of
returning false/null. -/
theorem spec_C9_send_task_range_eval :
    moogle_send_task emptyStore demoCfg "sid-1" 0 "p" Option.none 3
        Option.none "n" "m" "t" =
      .ok ((true, .str "t"),
        { entries := [("summoner:sid-1:tasks:2",
            .list [.dict demoTask0.toDict])],
          published := [("summoner:sid-1:monitor",
            create_publish_payload "n" "summoner:sid-1:tasks:2"
              (.dict demoTask0.toDict))] })
  ∧ moogle_send_task emptyStore demoCfg "sid-1" 3 "p" Option.none 3
        Option.none "n" "m" "t" = .error "IndexError" :=
  ⟨rfl, rfl⟩

/-- C10: in `send_with_publish` the push comes first and the publish is only
attempted after a successful push; a failed push yields `success=False` with
no publish attempt; a failed publish after a successful push leaves
`success=True` (no rollback) with `published=False` and the publish error
recorded; and a successful pair sets `published=True` with the subscriber
count. -/
theorem spec_C10_send_with_publish :
    ∀ (n subs : Nat) (e e' : String) (pubReply : ClientReply Nat),
      send_with_publish (.error e) pubReply =
        ({ success := false, list_length := 0, message_count := 0,
           published := false, subscribers := 0, error := some e },
         [.rpushOp])
    ∧ send_with_publish (.ok n) (.error e') =
        ({ success := true, list_length := n, message_count := 1,
           published := false, subscribers := 0,
           error := some ("PUBLISH failed: " ++ e') },
         [.rpushOp, .publishOp])
    ∧ send_with_publish (.ok n) (.ok subs) =
        ({ success := true, list_length := n, message_count := 1,
           published := true, subscribers := subs, error := Option.none },
         [.rpushOp, .publishOp]) :=
  fun _ _ _ _ _ => ⟨rfl, rfl, rfl⟩
